import Mathlib

/-!
Shallow embedding of `futbin_alerts/futbin.py`, a concurrent fetch-parse
pipeline pulling clubs, players and price series from a remote catalog.

Modelling conventions:
* A raw HTTP response is a status code plus an already-parsed payload; the
  payload type varies with the page kind (clubs listing rows, roster anchors,
  player detail page), mirroring what each `result()` override queries.
* Python exceptions become `Except FutbinError`; `FailedRequestException(url)`
  is `FutbinError.failedRequest url`, unpacking errors are `valueError`,
  `dict` lookup misses are `keyError`, attribute access on `None` is
  `typeError`.
* The nondeterministic completion order of `concurrent.futures.as_completed`
  is modelled by tagging each submitted future with a completion time and
  yielding them sorted by that time; quantifying over the time assignment
  quantifies over completion orders.
-/

namespace FutbinAlerts

def FUTBIN_URL : String := "https://www.futbin.com"

def FIFA18_URL : String := FUTBIN_URL ++ "/18"

/-- Error conditions raised by the embedded code paths. -/
inductive FutbinError where
  | failedRequest (url : String)
  | valueError
  | keyError (key : String)
  | typeError
  deriving Repr, DecidableEq

instance exceptDecEq {ε α : Type} [DecidableEq ε] [DecidableEq α] :
    DecidableEq (Except ε α) := fun a b =>
  match a, b with
  | .ok x, .ok y =>
    if h : x = y then .isTrue (congrArg Except.ok h)
    else .isFalse (fun hxy => h (Except.ok.inj hxy))
  | .error x, .error y =>
    if h : x = y then .isTrue (congrArg Except.error h)
    else .isFalse (fun hxy => h (Except.error.inj hxy))
  | .ok _, .error _ => .isFalse (fun hxy => Except.noConfusion hxy)
  | .error _, .ok _ => .isFalse (fun hxy => Except.noConfusion hxy)

/-- Attribute set of an HTML element (`data` of a `Player`), a key-value list
looked up like a Python dict (first binding wins). -/
abbrev Attrs := List (String × String)

/-- Embeds class `Player`: `Player(id, name, url, data)` where `data` is the
`page-info` element's attributes, or `none` when `soup.find` returned `None`. -/
structure Player where
  id : String
  name : String
  url : String
  data : Option Attrs
  deriving Repr, DecidableEq

/-- Embeds the `Player.price_id` property: `self.data['data-player-resource']`.
Subscripting `None` is a `TypeError`; a missing key is a `KeyError`. -/
def Player.price_id (p : Player) : Except FutbinError String :=
  match p.data with
  | none => .error .typeError
  | some m =>
    match m.lookup "data-player-resource" with
    | none => .error (.keyError "data-player-resource")
    | some v => .ok v

/-- Splitting of a character list on a separator, the semantics of Python
`str.split(sep)` for a one-character separator: `''` splits to `['']`,
adjacent separators produce empty segments. -/
def splitChars (sep : Char) : List Char → List (List Char)
  | [] => [[]]
  | c :: cs =>
    let rest := splitChars sep cs
    if c == sep then [] :: rest
    else
      match rest with
      | [] => [[c]]
      | g :: gs => (c :: g) :: gs

/-- Python `s.split(sep)` for a one-character separator. -/
def pySplit (sep : Char) (s : String) : List String :=
  (splitChars sep s.toList).map (fun g => String.mk g)

def dropLeadingWs : List Char → List Char
  | [] => []
  | c :: cs => if c.isWhitespace then dropLeadingWs cs else c :: cs

/-- Python `s.strip()`: remove leading and trailing whitespace. -/
def pyStrip (s : String) : String :=
  String.mk ((dropLeadingWs (dropLeadingWs s.toList).reverse).reverse)

/-- Embeds `Player.from_url`: `id, name = url.split('/')[-2:]` followed by
`cls(id, name, url, data)`. Unpacking fails (`ValueError`) when the split has
fewer than two segments. -/
def Player.from_url (url : String) (data : Option Attrs) : Except FutbinError Player :=
  match (pySplit '/' url).reverse with
  | name :: id :: _ => .ok ⟨id, name, url, data⟩
  | _ => .error .valueError

/-- A raw response: HTTP status code plus the page payload, already exposed at
the query granularity the corresponding `result()` override uses. -/
structure Response (α : Type) where
  status_code : Nat
  content : α
  deriving Repr, DecidableEq

/-- Embeds `FutBinFuture.result`: raise `FailedRequestException(self.url)` when
the status code is not 200, otherwise return the response. -/
def futBinResult {α : Type} (url : String) (resp : Response α) : Except FutbinError (Response α) :=
  if resp.status_code ≠ 200 then .error (.failedRequest url) else .ok resp

/-- Does `cs` start with `player_tr_` followed by a digit? One position of the
search for the compiled pattern on a class string. -/
def playerTrAt (cs : List Char) : Bool :=
  "player_tr_".toList.isPrefixOf cs &&
    (match cs.drop 10 with
     | d :: _ => d.isDigit
     | [] => false)

/-- Search semantics of `re.compile(r'player_tr_\d+')` on a class string: the
pattern may occur at any position. -/
def hasPlayerTr : List Char → Bool
  | [] => false
  | c :: cs => playerTrAt (c :: cs) || hasPlayerTr cs

def matchesPlayerTr (s : String) : Bool := hasPlayerTr s.toList

/-- Substring search, the semantics of `re.compile('player/')` applied to an
anchor's `href` attribute. -/
def hasSubstr (pat : List Char) : List Char → Bool
  | [] => pat.isPrefixOf []
  | c :: cs => pat.isPrefixOf (c :: cs) || hasSubstr pat cs

/-- A table row of the clubs listing page: its class attribute and the text of
its `td` cells in document order. -/
structure TableRow where
  className : String
  cells : List String
  deriving Repr, DecidableEq

/-- An anchor element of a club roster page. -/
structure Anchor where
  href : String
  deriving Repr, DecidableEq

/-- A player detail page: the attribute set of the element with id
`page-info`, or `none` when no such element exists. -/
structure PlayerPage where
  pageInfo : Option Attrs
  deriving Repr, DecidableEq

/-- A request descriptor: target URL and query parameters. -/
structure Request where
  url : String
  params : List (String × String)
  deriving Repr, DecidableEq

/-- Embeds `ClubsPageFuture.__init__`: GET `{FIFA18_URL}/clubs` with
`params={'page': page}`. -/
def ClubsPageFuture.request (page : Nat) : Request :=
  ⟨FIFA18_URL ++ "/clubs", [("page", toString page)]⟩

def clubsPageUrl : String := FIFA18_URL ++ "/clubs"

/-- Embeds the row loop of `ClubsPageFuture.result`, applied to the rows
matched by the class filter: read the first `td` cell's stripped text, stop at
the sentinel `'No Results'`, otherwise accumulate. A row with no `td` makes
`row.find('td')` return `None` and `.text` raise (`typeError`). -/
def clubsPageRows : List TableRow → Except FutbinError (List String)
  | [] => .ok []
  | r :: rs =>
    match r.cells with
    | [] => .error .typeError
    | cell :: _ =>
      let club := pyStrip cell
      if club == "No Results" then .ok []
      else (clubsPageRows rs).map (fun more => club :: more)

/-- The extraction step of `ClubsPageFuture.result` on a parsed page:
`soup.find_all(class_=re.compile(r'player_tr_\d+'))` then the row loop. -/
def clubsExtract (rows : List TableRow) : Except FutbinError (List String) :=
  clubsPageRows (rows.filter (fun r => matchesPlayerTr r.className))

/-- Embeds `ClubsPageFuture.result` end to end: status check, parse, filter,
row loop. -/
def ClubsPageFuture.result (resp : Response (List TableRow)) : Except FutbinError (List String) :=
  (futBinResult clubsPageUrl resp).bind (fun r => clubsExtract r.content)

/-- Embeds `ClubPlayersFuture.__init__`: GET `{FIFA18_URL}/clubs/{club}` with
no query parameters. -/
def ClubPlayersFuture.request (club : String) : Request :=
  ⟨FIFA18_URL ++ "/clubs/" ++ club, []⟩

def clubPlayersUrl (club : String) : String := FIFA18_URL ++ "/clubs/" ++ club

/-- Embeds `ClubPlayersFuture.result`: status check, then
`soup.find_all('a', href=re.compile('player/'))`, yielding
`FUTBIN_URL + href` for each matching anchor. The generator body runs when
first iterated, so the status failure surfaces at the consuming `for` loop;
the consumer iterates eagerly, so a list captures it. -/
def ClubPlayersFuture.result (club : String) (resp : Response (List Anchor)) : Except FutbinError (List String) :=
  (futBinResult (clubPlayersUrl club) resp).map (fun r =>
    (r.content.filter (fun a => hasSubstr "player/".toList a.href.toList)).map
      (fun a => FUTBIN_URL ++ a.href))

/-- Embeds `PlayerDataFuture.result`: status check, then
`soup.find('div', id='page-info')` and `Player.from_url(self.url, data)`. -/
def PlayerDataFuture.result (url : String) (resp : Response PlayerPage) : Except FutbinError Player :=
  (futBinResult url resp).bind (fun r => Player.from_url url r.content.pageInfo)

/-- Embeds `PlayerPriceFuture.__init__`: GET `{FUTBIN_URL}/{year}/playerGraph`
with params type, year, player (the player's `price_id`, whose lookup may
raise) and the cache-busting timestamp `int(time.time())`. -/
def PlayerPriceFuture.request (p : Player) (ty year : String) (now : Nat) : Except FutbinError Request :=
  (p.price_id).map (fun pid =>
    ⟨FUTBIN_URL ++ "/" ++ year ++ "/playerGraph",
     [("type", ty), ("year", year), ("player", pid), ("_", toString now)]⟩)

/-- Modelled from the spec: section 6 fixes the base as `https://<host>/18`
and the price graph at `/<year>/playerGraph`, so the spec's price-graph URL
resolves the path against that base. -/
def specPriceGraphUrl (year : String) : String :=
  FIFA18_URL ++ "/" ++ year ++ "/playerGraph"

def DEFAULT_WORKERS : Nat := 4

/-- Embeds `FutBinSession.__init__`: the pool width passed on is
`max_workers or self.DEFAULT_WORKERS`, so `None` and the falsy width `0` both
fall back to the default. -/
def sessionWorkers (max_workers : Option Nat) : Nat :=
  match max_workers with
  | none => DEFAULT_WORKERS
  | some w => if w == 0 then DEFAULT_WORKERS else w

/-- A submitted future: the wrapper object stored on it by
`FutBinFuture.__init__` (`self.future.wrapper = self`) and its completion
time. -/
structure FutFuture (α : Type) where
  wrapper : α
  doneAt : Nat
  deriving Repr, DecidableEq

/-- Submission of a batch of wrappers: wrapper `i` gets a future completing at
time `t i`. -/
def submitAll {α : Type} (ws : List α) (t : Nat → Nat) : List (FutFuture α) :=
  ws.enum.map (fun p => ⟨p.2, t p.1⟩)

def insertByTime {α : Type} (f : FutFuture α) : List (FutFuture α) → List (FutFuture α)
  | [] => [f]
  | g :: gs => if f.doneAt ≤ g.doneAt then f :: g :: gs else g :: insertByTime f gs

/-- Models `concurrent.futures.as_completed`: the submitted futures are
yielded in completion-time order. -/
def as_completed {α : Type} : List (FutFuture α) → List (FutFuture α)
  | [] => []
  | f :: fs => insertByTime f (as_completed fs)

/-- Embeds `_as_completed`: iterate `as_completed` over the underlying futures
and yield each one's `wrapper` back-reference. -/
def asCompletedWrappers {α : Type} (ws : List α) (t : Nat → Nat) : List α :=
  (as_completed (submitAll ws t)).map FutFuture.wrapper

/-- The environment a `get_players_for_clubs` run executes against: the
response each club roster URL produces and the response each player detail
URL produces. -/
structure Env where
  roster : String → Response (List Anchor)
  detail : String → Response PlayerPage

/-- Embeds the first wave loop of `get_players_for_clubs`: for each club in
completion order, iterate its `ClubPlayersFuture.result()` generator and
submit one tagged `PlayerDataFuture` per yielded URL. The first failing
roster raises out of the uncaught `for url in f.result()` loop. -/
def stage1 (env : Env) : List String → Except FutbinError (List (String × String))
  | [] => .ok []
  | club :: rest =>
    match ClubPlayersFuture.result club (env.roster club) with
    | .error e => .error e
    | .ok urls => (stage1 env rest).map (fun more => urls.map (fun u => (club, u)) ++ more)

/-- Append a player to a club's entry of the `defaultdict(list)` accumulator:
`result[f.club].append(p)` creates the key on first append, at the end of the
insertion order. -/
def dictAppend (m : List (String × List Player)) (club : String) (p : Player) : List (String × List Player) :=
  match m with
  | [] => [(club, [p])]
  | (c, ps) :: rest =>
    if c == club then (c, ps ++ [p]) :: rest else (c, ps) :: dictAppend rest club p

/-- Embeds the second wave loop of `get_players_for_clubs`: for each tagged
player-detail future in completion order, `p = f.result()` (uncaught on
failure) then `result[f.club].append(p)`. -/
def stage2 (env : Env) : List (String × String) → List (String × List Player) → Except FutbinError (List (String × List Player))
  | [], acc => .ok acc
  | (club, url) :: rest, acc =>
    match PlayerDataFuture.result url (env.detail url) with
    | .error e => .error e
    | .ok p => stage2 env rest (dictAppend acc club p)

/-- Embeds `get_players_for_clubs`. `co1` is the first wave's completion order
(a permutation of the submitted clubs) and `σ2` reorders the second wave into
its completion order; theorems constrain both to be permutations. Any
`FailedRequestException` propagates out of the function. -/
def get_players_for_clubs (env : Env) (co1 : List String)
    (σ2 : List (String × String) → List (String × String)) :
    Except FutbinError (List (String × List Player)) :=
  (stage1 env co1).bind (fun fs => stage2 env (σ2 fs) [])

/-! ## Helper lemmas -/

theorem insertByTime_perm {α : Type} (f : FutFuture α) :
    ∀ l : List (FutFuture α), List.Perm (insertByTime f l) (f :: l)
  | [] => List.Perm.refl _
  | g :: gs => by
    unfold insertByTime
    split
    · exact List.Perm.refl _
    · exact (((insertByTime_perm f gs).cons g)).trans (List.Perm.swap f g gs)

theorem as_completed_perm {α : Type} :
    ∀ l : List (FutFuture α), List.Perm (as_completed l) l
  | [] => List.Perm.refl _
  | f :: fs => (insertByTime_perm f (as_completed fs)).trans ((as_completed_perm fs).cons f)

theorem from_url_append (url : String) (data : Option Attrs) (front : List String)
    (pid pname : String) (h : pySplit '/' url = front ++ [pid, pname]) :
    Player.from_url url data = .ok ⟨pid, pname, url, data⟩ := by
  unfold Player.from_url
  rw [h, List.reverse_append]
  rfl

/-- The stripped text of a row's first `td` cell. -/
def trimmedFirstCell (r : TableRow) : String := pyStrip (r.cells.headD "")

theorem clubsPageRows_eq (l : List TableRow) (h : ∀ r ∈ l, r.cells ≠ []) :
    clubsPageRows l =
      .ok ((l.map trimmedFirstCell).takeWhile (fun s => s != "No Results")) := by
  induction l with
  | nil => rfl
  | cons r rs ih =>
    have hr : r.cells ≠ [] := h r (List.mem_cons_self r rs)
    have hrest : ∀ x ∈ rs, x.cells ≠ [] := fun x hx => h x (List.mem_cons_of_mem r hx)
    cases hc : r.cells with
    | nil => exact absurd hc hr
    | cons cell rest =>
      have htf : trimmedFirstCell r = pyStrip cell := by
        simp [trimmedFirstCell, hc]
      simp only [clubsPageRows, hc, List.map_cons, htf, List.takeWhile_cons]
      by_cases hne : pyStrip cell == "No Results"
      · have heq : pyStrip cell = "No Results" := eq_of_beq hne
        simp [hne, heq]
      · simp only [hne, ite_false, ih hrest, Except.map]
        have : (pyStrip cell != "No Results") = true := by
          simp [bne, hne]
        simp [this]

theorem clubPlayers_result_ok (club : String) (resp : Response (List Anchor))
    (h : resp.status_code = 200) :
    ClubPlayersFuture.result club resp =
      .ok ((resp.content.filter (fun a => hasSubstr "player/".toList a.href.toList)).map
        (fun a => FUTBIN_URL ++ a.href)) := by
  simp [ClubPlayersFuture.result, futBinResult, h, Except.map]

theorem clubPlayers_result_err (club : String) (resp : Response (List Anchor))
    (h : resp.status_code ≠ 200) :
    ClubPlayersFuture.result club resp = .error (.failedRequest (clubPlayersUrl club)) := by
  simp [ClubPlayersFuture.result, futBinResult, h, Except.map]

theorem stage1_cons_err (env : Env) (a : String) (rest : List String) (e : FutbinError)
    (h : ClubPlayersFuture.result a (env.roster a) = .error e) :
    stage1 env (a :: rest) = .error e := by
  simp only [stage1, h]

theorem stage1_cons_ok (env : Env) (a : String) (rest : List String) (urls : List String)
    (h : ClubPlayersFuture.result a (env.roster a) = .ok urls) :
    stage1 env (a :: rest) =
      (stage1 env rest).map (fun more => urls.map (fun u => (a, u)) ++ more) := by
  simp only [stage1, h]

theorem stage1_error_of_bad_roster (env : Env) :
    ∀ co1 : List String, ∀ club : String, club ∈ co1 →
      (env.roster club).status_code ≠ 200 →
      ∃ c, c ∈ co1 ∧ (env.roster c).status_code ≠ 200 ∧
        stage1 env co1 = .error (.failedRequest (clubPlayersUrl c)) := by
  intro co1
  induction co1 with
  | nil => intro club h; cases h
  | cons a rest ih =>
    intro club hmem hbad
    by_cases ha : (env.roster a).status_code = 200
    · have hclub : club ∈ rest := by
        rcases List.mem_cons.mp hmem with rfl | h
        · exact absurd ha hbad
        · exact h
      obtain ⟨c, hc, hbadc, heq⟩ := ih club hclub hbad
      refine ⟨c, List.mem_cons_of_mem a hc, hbadc, ?_⟩
      rw [stage1_cons_ok env a rest _ (clubPlayers_result_ok a (env.roster a) ha), heq]
      rfl
    · exact ⟨a, List.mem_cons_self a rest, ha,
        stage1_cons_err env a rest _ (clubPlayers_result_err a (env.roster a) ha)⟩

theorem stage1_mem (env : Env) :
    ∀ (co1 : List String) (fs : List (String × String)), stage1 env co1 = .ok fs →
      ∀ (c u : String), ((c, u) ∈ fs ↔
        c ∈ co1 ∧ ∃ urls, ClubPlayersFuture.result c (env.roster c) = .ok urls ∧ u ∈ urls) := by
  intro co1
  induction co1 with
  | nil =>
    intro fs hfs c u
    simp only [stage1] at hfs
    have : fs = [] := (Except.ok.inj hfs).symm
    subst this
    simp
  | cons a rest ih =>
    intro fs hfs c u
    cases hres : ClubPlayersFuture.result a (env.roster a) with
    | error e =>
      rw [stage1_cons_err env a rest e hres] at hfs
      exact absurd hfs (by simp)
    | ok urls =>
      rw [stage1_cons_ok env a rest urls hres] at hfs
      cases hmore : stage1 env rest with
      | error e =>
        rw [hmore] at hfs
        exact absurd hfs (by simp [Except.map])
      | ok more =>
        rw [hmore] at hfs
        simp only [Except.map] at hfs
        have hfs2 : urls.map (fun u => (a, u)) ++ more = fs := Except.ok.inj hfs
        subst hfs2
        constructor
        · intro hmem
          rcases List.mem_append.mp hmem with hl | hr
          · rcases List.mem_map.mp hl with ⟨v, hv, hveq⟩
            have hca : a = c := congrArg Prod.fst hveq
            have hvu : v = u := congrArg Prod.snd hveq
            subst hca
            subst hvu
            exact ⟨List.mem_cons_self a rest, urls, hres, hv⟩
          · have h2 := (ih more hmore c u).mp hr
            exact ⟨List.mem_cons_of_mem a h2.1, h2.2⟩
        · rintro ⟨hc, urls', hres', hu'⟩
          by_cases hca : c = a
          · subst hca
            have : urls' = urls := Except.ok.inj (hres'.symm.trans hres)
            subst this
            exact List.mem_append_left _ (List.mem_map.mpr ⟨u, hu', rfl⟩)
          · have hcr : c ∈ rest := by
              rcases List.mem_cons.mp hc with h | h
              · exact absurd h hca
              · exact h
            exact List.mem_append_right _
              ((ih more hmore c u).mpr ⟨hcr, urls', hres', hu'⟩)

theorem dictAppend_keys (acc : List (String × List Player)) (club : String) (p : Player)
    (c : String) :
    (c ∈ (dictAppend acc club p).map Prod.fst) ↔
      (c ∈ acc.map Prod.fst ∨ c = club) := by
  induction acc with
  | nil => simp [dictAppend]
  | cons hd tl ih =>
    obtain ⟨c0, ps0⟩ := hd
    simp only [dictAppend]
    by_cases h : (c0 == club) = true
    · have hcc : c0 = club := eq_of_beq h
      subst hcc
      rw [if_pos h]
      simp only [List.map_cons, List.mem_cons]
      tauto
    · rw [if_neg h]
      simp only [List.map_cons, List.mem_cons, ih]
      tauto

theorem dictAppend_nonempty (club : String) (p : Player) :
    ∀ acc : List (String × List Player),
      (∀ c ps, (c, ps) ∈ acc → ps ≠ []) →
      ∀ c ps, (c, ps) ∈ dictAppend acc club p → ps ≠ [] := by
  intro acc
  induction acc with
  | nil =>
    intro _ c ps hm
    simp only [dictAppend, List.mem_singleton] at hm
    have : ps = [p] := congrArg Prod.snd hm
    simp [this]
  | cons hd tl ih =>
    obtain ⟨c0, ps0⟩ := hd
    intro h c ps hm
    simp only [dictAppend] at hm
    by_cases hb : (c0 == club) = true
    · rw [if_pos hb] at hm
      rcases List.mem_cons.mp hm with heq | htl
      · have : ps = ps0 ++ [p] := congrArg Prod.snd heq
        simp [this]
      · exact h c ps (List.mem_cons_of_mem _ htl)
    · rw [if_neg hb] at hm
      rcases List.mem_cons.mp hm with heq | htl
      · have hps : ps = ps0 := congrArg Prod.snd heq
        have hcs : c = c0 := congrArg Prod.fst heq
        subst hps
        subst hcs
        exact h c ps (List.mem_cons_self _ _)
      · exact ih (fun c' ps' hm' => h c' ps' (List.mem_cons_of_mem _ hm')) c ps htl

theorem stage2_keys (env : Env) :
    ∀ (pairs : List (String × String)) (acc m : List (String × List Player)),
      stage2 env pairs acc = .ok m →
      ∀ c, (c ∈ m.map Prod.fst ↔ c ∈ acc.map Prod.fst ∨ (∃ u, (c, u) ∈ pairs)) := by
  intro pairs
  induction pairs with
  | nil =>
    intro acc m hm c
    simp only [stage2] at hm
    have : acc = m := Except.ok.inj hm
    subst this
    simp
  | cons pr rest ih =>
    obtain ⟨club, url⟩ := pr
    intro acc m hm c
    simp only [stage2] at hm
    cases hres : PlayerDataFuture.result url (env.detail url) with
    | error e =>
      rw [hres] at hm
      exact absurd hm (by simp)
    | ok p =>
      rw [hres] at hm
      rw [ih (dictAppend acc club p) m hm c, dictAppend_keys]
      constructor
      · rintro ((hacc | rfl) | ⟨u, hu⟩)
        · exact .inl hacc
        · exact .inr ⟨url, List.mem_cons_self _ _⟩
        · exact .inr ⟨u, List.mem_cons_of_mem _ hu⟩
      · rintro (hacc | ⟨u, hu⟩)
        · exact .inl (.inl hacc)
        · rcases List.mem_cons.mp hu with heq | htl
          · have : c = club := congrArg Prod.fst heq
            exact .inl (.inr this)
          · exact .inr ⟨u, htl⟩

theorem stage2_nonempty (env : Env) :
    ∀ (pairs : List (String × String)) (acc m : List (String × List Player)),
      (∀ c ps, (c, ps) ∈ acc → ps ≠ []) →
      stage2 env pairs acc = .ok m →
      ∀ c ps, (c, ps) ∈ m → ps ≠ [] := by
  intro pairs
  induction pairs with
  | nil =>
    intro acc m hacc hm
    simp only [stage2] at hm
    have : acc = m := Except.ok.inj hm
    subst this
    exact hacc
  | cons pr rest ih =>
    obtain ⟨club, url⟩ := pr
    intro acc m hacc hm
    simp only [stage2] at hm
    cases hres : PlayerDataFuture.result url (env.detail url) with
    | error e =>
      rw [hres] at hm
      exact absurd hm (by simp)
    | ok p =>
      rw [hres] at hm
      exact ih (dictAppend acc club p) m (dictAppend_nonempty club p acc hacc) hm

/-! ## Claims -/

/-- Claim C2: for every finite batch of N submitted transformer wrappers and
every assignment of completion times to their futures (hence every completion
order), iterating `_as_completed` yields exactly the N wrapper objects, each
submitted wrapper exactly once, with no duplicates and no omissions: the
yielded list is a permutation of the submitted list and has the same
length. -/
theorem c2_as_completed_exact {α : Type} (ws : List α) (t : Nat → Nat) :
    List.Perm (asCompletedWrappers ws t) ws ∧
      (asCompletedWrappers ws t).length = ws.length := by
  have hperm : List.Perm (asCompletedWrappers ws t) ws := by
    unfold asCompletedWrappers
    have h1 : List.Perm ((as_completed (submitAll ws t)).map FutFuture.wrapper)
        ((submitAll ws t).map FutFuture.wrapper) :=
      (as_completed_perm (submitAll ws t)).map FutFuture.wrapper
    have h2 : (submitAll ws t).map FutFuture.wrapper = ws := by
      unfold submitAll
      rw [List.map_map]
      exact List.enum_map_snd ws
    rw [h2] at h1
    exact h1
  exact ⟨hperm, hperm.length_eq⟩

/-- Claim C3: `FutBinFuture.result` raises `FailedRequestException` carrying
the request's original URL if and only if the response's status code is not
200; with status 200 it returns the raw response; and one wrapper's non-200
failure (here 404) does not prevent a sibling wrapper with status 200 from
resolving successfully. -/
theorem c3_status_check {α : Type} (u1 u2 : String) (r1 r2 : Response α)
    (h1 : r1.status_code = 404) (h2 : r2.status_code = 200) :
    futBinResult u1 r1 = .error (.failedRequest u1) ∧
    futBinResult u2 r2 = .ok r2 ∧
    (∀ (u : String) (r : Response α),
      (futBinResult u r = .error (.failedRequest u) ↔ r.status_code ≠ 200) ∧
      (r.status_code = 200 → futBinResult u r = .ok r)) := by
  refine ⟨by simp [futBinResult, h1], by simp [futBinResult, h2], ?_⟩
  intro u r
  constructor
  · constructor
    · intro he hc
      simp [futBinResult, hc] at he
    · intro hne
      simp [futBinResult, hne]
  · intro hc
    simp [futBinResult, hc]

/-- Witness for C3 at a concrete 404/200 sibling pair. -/
theorem c3_status_check_witness :
    futBinResult "https://www.futbin.com/18/clubs/Arsenal" (⟨404, 0⟩ : Response Nat) =
      .error (.failedRequest "https://www.futbin.com/18/clubs/Arsenal") ∧
    futBinResult "https://www.futbin.com/18/clubs/Chelsea" (⟨200, 0⟩ : Response Nat) =
      .ok ⟨200, 0⟩ :=
  ⟨(c3_status_check "https://www.futbin.com/18/clubs/Arsenal"
      "https://www.futbin.com/18/clubs/Chelsea" ⟨404, 0⟩ ⟨200, 0⟩ rfl rfl).1,
   (c3_status_check "https://www.futbin.com/18/clubs/Arsenal"
      "https://www.futbin.com/18/clubs/Chelsea" ⟨404, 0⟩ ⟨200, 0⟩ rfl rfl).2.1⟩

/-- Rows of the clubs-page example of the claim: two real clubs followed by
the sentinel row. -/
def c4ExampleRows : List TableRow :=
  [⟨"player_tr_1", ["Arsenal"]⟩, ⟨"player_tr_2", ["Chelsea"]⟩,
   ⟨"player_tr_3", ["No Results"]⟩]

/-- A page whose only row does not match the `player_tr_<digits>` class
filter. -/
def c4NoMatchRows : List TableRow := [⟨"table-header", ["Club"]⟩]

/-- Claim C4: for every parsed clubs listing page whose class-matched rows
each have a first cell, the extraction returns, in document order, the
stripped first-cell text of each row whose class matches
`player_tr_<digits>`, truncated at (and excluding) the first row whose text
is exactly `No Results`; the rows Arsenal, Chelsea, No Results yield exactly
Arsenal and Chelsea, and a page with zero matching rows yields the empty
sequence without failing. -/
theorem c4_clubs_page_extraction (rows : List TableRow)
    (h : ∀ r ∈ rows.filter (fun r => matchesPlayerTr r.className), r.cells ≠ []) :
    clubsExtract rows =
      .ok (((rows.filter (fun r => matchesPlayerTr r.className)).map
        trimmedFirstCell).takeWhile (fun s => s != "No Results")) ∧
    clubsExtract c4ExampleRows = .ok ["Arsenal", "Chelsea"] ∧
    clubsExtract c4NoMatchRows = .ok [] :=
  ⟨clubsPageRows_eq _ h, by decide, by decide⟩

/-- Witness for C4 at the concrete example pages. -/
theorem c4_clubs_page_extraction_witness :
    clubsExtract c4ExampleRows = .ok ["Arsenal", "Chelsea"] ∧
    clubsExtract c4NoMatchRows = .ok [] :=
  ⟨(c4_clubs_page_extraction c4ExampleRows (by decide)).2.1,
   (c4_clubs_page_extraction c4ExampleRows (by decide)).2.2⟩

/-- Claim C5: `Player.from_url` derives id and name from the URL's final two
slash-separated segments (id = second-to-last, name = last) and stores the
URL unchanged; in particular `https://host/18/players/158023/l-messi` yields
id `158023` and name `l-messi`. -/
theorem c5_from_url_segments (url : String) (data : Option Attrs)
    (front : List String) (pid pname : String)
    (h : pySplit '/' url = front ++ [pid, pname]) :
    Player.from_url url data = .ok ⟨pid, pname, url, data⟩ ∧
    Player.from_url "https://host/18/players/158023/l-messi" data =
      .ok ⟨"158023", "l-messi", "https://host/18/players/158023/l-messi", data⟩ :=
  ⟨from_url_append url data front pid pname h, rfl⟩

/-- Witness for C5 at the Messi URL. -/
theorem c5_from_url_segments_witness :
    Player.from_url "https://host/18/players/158023/l-messi" none =
      .ok ⟨"158023", "l-messi", "https://host/18/players/158023/l-messi", none⟩ :=
  (c5_from_url_segments "https://host/18/players/158023/l-messi" none
    ["https:", "", "host", "18", "players"] "158023" "l-messi" (by decide)).1

/-- Claim C6: when the underlying fetch succeeded with status 200 (and the
request URL has at least two path segments), `PlayerDataFuture.result`
returns a Player without raising even when the document has no `page-info`
element; in that case the failure is deferred, the returned Player's
`price_id` accessor failing when later accessed; and it raises the
request-failure exception exactly when the underlying fetch failed. -/
theorem c6_player_data_deferred (url : String) (resp : Response PlayerPage)
    (front : List String) (pid pname : String)
    (hs : pySplit '/' url = front ++ [pid, pname]) :
    (resp.status_code = 200 →
      PlayerDataFuture.result url resp = .ok ⟨pid, pname, url, resp.content.pageInfo⟩ ∧
      (resp.content.pageInfo = none →
        (Player.mk pid pname url resp.content.pageInfo).price_id = .error .typeError)) ∧
    (PlayerDataFuture.result url resp = .error (.failedRequest url) ↔
      resp.status_code ≠ 200) := by
  have hres : ∀ d, Player.from_url url d = .ok ⟨pid, pname, url, d⟩ :=
    fun d => from_url_append url d front pid pname hs
  constructor
  · intro h200
    constructor
    · simp [PlayerDataFuture.result, futBinResult, h200, hres, Except.bind]
    · intro hnone
      simp [Player.price_id, hnone]
  · constructor
    · intro he
      by_contra hc
      simp [PlayerDataFuture.result, futBinResult, hc, hres, Except.bind] at he
    · intro hne
      simp [PlayerDataFuture.result, futBinResult, hne, Except.bind]

/-- Witness for C6: a 200 response with no `page-info` element yields a
Player whose price lookup fails later, and a 404 response raises the request
failure. -/
theorem c6_player_data_deferred_witness :
    ((⟨200, ⟨none⟩⟩ : Response PlayerPage).status_code = 200 →
      PlayerDataFuture.result "https://www.futbin.com/18/player/158023/l-messi"
          ⟨200, ⟨none⟩⟩ =
        .ok ⟨"158023", "l-messi", "https://www.futbin.com/18/player/158023/l-messi",
             (⟨200, (⟨none⟩ : PlayerPage)⟩ : Response PlayerPage).content.pageInfo⟩ ∧
      ((⟨200, (⟨none⟩ : PlayerPage)⟩ : Response PlayerPage).content.pageInfo = none →
        (Player.mk "158023" "l-messi"
          "https://www.futbin.com/18/player/158023/l-messi"
          (⟨200, (⟨none⟩ : PlayerPage)⟩ : Response PlayerPage).content.pageInfo).price_id =
          .error .typeError)) ∧
    (PlayerDataFuture.result "https://www.futbin.com/18/player/158023/l-messi"
        (⟨200, ⟨none⟩⟩ : Response PlayerPage) =
        .error (.failedRequest "https://www.futbin.com/18/player/158023/l-messi") ↔
      (⟨200, (⟨none⟩ : PlayerPage)⟩ : Response PlayerPage).status_code ≠ 200) :=
  c6_player_data_deferred "https://www.futbin.com/18/player/158023/l-messi"
    ⟨200, ⟨none⟩⟩ ["https:", "", "www.futbin.com", "18", "player"] "158023" "l-messi"
    (by decide)

/-- Claim C7: when a Player's auxiliary data contains the key
`data-player-resource`, `price_id` returns that key's value unchanged
(auxiliary data mapping it to `158023` gives `158023`); when the key is
absent, accessing `price_id` fails with a key-missing error rather than
returning a fallback. -/
theorem c7_price_id_lookup (p : Player) (m : Attrs) (hm : p.data = some m) :
    (∀ v, m.lookup "data-player-resource" = some v → p.price_id = .ok v) ∧
    (m.lookup "data-player-resource" = none →
      p.price_id = .error (.keyError "data-player-resource")) ∧
    (Player.mk "158023" "l-messi" "u" (some [("data-player-resource", "158023")])).price_id =
      .ok "158023" := by
  refine ⟨?_, ?_, rfl⟩
  · intro v hv
    unfold Player.price_id
    rw [hm]
    simp only
    rw [hv]
  · intro hv
    unfold Player.price_id
    rw [hm]
    simp only
    rw [hv]

/-- Witness for C7: present key returns the value, absent key fails. -/
theorem c7_price_id_lookup_witness :
    (∀ v, ([("data-player-resource", "158023")] : Attrs).lookup "data-player-resource" = some v →
      (Player.mk "158023" "l-messi" "u" (some [("data-player-resource", "158023")])).price_id = .ok v) ∧
    (([("data-player-resource", "158023")] : Attrs).lookup "data-player-resource" = none →
      (Player.mk "158023" "l-messi" "u" (some [("data-player-resource", "158023")])).price_id =
        .error (.keyError "data-player-resource")) ∧
    (Player.mk "158023" "l-messi" "u" (some [("data-player-resource", "158023")])).price_id =
      .ok "158023" :=
  c7_price_id_lookup
    (Player.mk "158023" "l-messi" "u" (some [("data-player-resource", "158023")]))
    [("data-player-resource", "158023")] rfl

/-- Claim C10, counterexample: the caller-supplied width 0 is falsy in
`max_workers or self.DEFAULT_WORKERS`, so the session uses width 4, not the
supplied width 0 — the claim fails as stated for w = 0. -/
theorem c10_counterexample : sessionWorkers (some 0) = 4 ∧ (4 : Nat) ≠ 0 := by decide

/-- Claim C10 as amended: a session constructed with no `max_workers` uses
width 4, every caller-supplied nonzero width w yields width w, and the falsy
width 0 also falls back to the default 4. -/
theorem c10_amended (w : Nat) (h : w ≠ 0) :
    sessionWorkers none = 4 ∧ sessionWorkers (some w) = w ∧
      sessionWorkers (some 0) = 4 ∧ DEFAULT_WORKERS = 4 := by
  refine ⟨rfl, ?_, rfl, rfl⟩
  simp [sessionWorkers, h]

/-- Witness for the amended C10 at width 7. -/
theorem c10_amended_witness :
    sessionWorkers none = 4 ∧ sessionWorkers (some 7) = 7 ∧
      sessionWorkers (some 0) = 4 ∧ DEFAULT_WORKERS = 4 :=
  c10_amended 7 (by decide)

/-- A concrete Player whose auxiliary data carries a price id. -/
def messiExample : Player :=
  ⟨"158023", "l-messi", "https://www.futbin.com/18/player/158023/l-messi",
   some [("data-player-resource", "158023")]⟩

/-- Claim C9, counterexample: for year `19` the code requests
`https://www.futbin.com/19/playerGraph`, built on the bare host, while the
spec's fixed base `https://<host>/18` puts the price graph at
`https://www.futbin.com/18/19/playerGraph`; the two differ. -/
theorem c9_counterexample :
    (PlayerPriceFuture.request messiExample "today" "19" 1500000000).map Request.url =
      .ok "https://www.futbin.com/19/playerGraph" ∧
    specPriceGraphUrl "19" = "https://www.futbin.com/18/19/playerGraph" ∧
    ("https://www.futbin.com/19/playerGraph" : String) ≠
      "https://www.futbin.com/18/19/playerGraph" :=
  ⟨rfl, rfl, by decide⟩

/-- Claim C9 as amended: clubs listing requests go to
`https://www.futbin.com/18/clubs` with query parameter `page`; club roster
requests go to `https://www.futbin.com/18/clubs/<clubId>`; price-graph
requests go to `https://www.futbin.com/<year>/playerGraph` (built on the bare
host, not the `/18` base) with query parameters type, year, player = the
Player's price id, and the unix-timestamp cache buster. -/
theorem c9_amended (page : Nat) (club : String) (p : Player)
    (pid ty year : String) (now : Nat) (h : p.price_id = .ok pid) :
    ClubsPageFuture.request page =
      ⟨"https://www.futbin.com/18/clubs", [("page", toString page)]⟩ ∧
    ClubPlayersFuture.request club =
      ⟨"https://www.futbin.com/18/clubs/" ++ club, []⟩ ∧
    PlayerPriceFuture.request p ty year now =
      .ok ⟨"https://www.futbin.com/" ++ year ++ "/playerGraph",
           [("type", ty), ("year", year), ("player", pid), ("_", toString now)]⟩ := by
  refine ⟨rfl, rfl, ?_⟩
  unfold PlayerPriceFuture.request
  rw [h]
  rfl

/-- Witness for the amended C9 at concrete page, club, player and time. -/
theorem c9_amended_witness :
    ClubsPageFuture.request 3 =
      ⟨"https://www.futbin.com/18/clubs", [("page", toString 3)]⟩ ∧
    ClubPlayersFuture.request "Arsenal" =
      ⟨"https://www.futbin.com/18/clubs/" ++ "Arsenal", []⟩ ∧
    PlayerPriceFuture.request messiExample "today" "18" 1500000000 =
      .ok ⟨"https://www.futbin.com/" ++ "18" ++ "/playerGraph",
           [("type", "today"), ("year", "18"), ("player", "158023"),
            ("_", toString 1500000000)]⟩ :=
  c9_amended 3 "Arsenal" messiExample "158023" "today" "18" 1500000000 rfl

/-- Environment of the claim's end-to-end scenario: Arsenal's roster fetch
fails with 404, Chelsea's succeeds with two player links, and every player
detail fetch succeeds. -/
def arsenalChelseaEnv : Env :=
  ⟨fun club =>
    if club == "Chelsea" then
      ⟨200, [⟨"/18/player/1/hazard"⟩, ⟨"/18/player/2/kante"⟩]⟩
    else ⟨404, []⟩,
   fun _ => ⟨200, ⟨some [("data-player-resource", "100")]⟩⟩⟩

/-- Claim C1, counterexample: in the scenario where Arsenal's roster fetch
fails and Chelsea's succeeds with two player URLs, `get_players_for_clubs`
does not return a mapping at all — under either completion order of the first
wave it propagates `FailedRequestException` carrying Arsenal's roster URL, so
the failure is not swallowed and Chelsea's two players are not returned. -/
theorem c1_counterexample :
    get_players_for_clubs arsenalChelseaEnv ["Arsenal", "Chelsea"] (fun l => l) =
      .error (.failedRequest "https://www.futbin.com/18/clubs/Arsenal") ∧
    get_players_for_clubs arsenalChelseaEnv ["Chelsea", "Arsenal"] (fun l => l) =
      .error (.failedRequest "https://www.futbin.com/18/clubs/Arsenal") := by
  constructor <;> decide

/-- Claim C1 as amended: when any submitted club's roster fetch fails
(non-200), `get_players_for_clubs` does not return a mapping; for every
completion order it raises `FailedRequestException` carrying the roster URL
of a failing club, so the successful club's resolved players are not
returned either. -/
theorem c1_amended (env : Env) (clubs co1 : List String)
    (σ2 : List (String × String) → List (String × String))
    (hperm : List.Perm co1 clubs) (club : String) (hmem : club ∈ clubs)
    (hbad : (env.roster club).status_code ≠ 200) :
    ∃ c, c ∈ clubs ∧ (env.roster c).status_code ≠ 200 ∧
      get_players_for_clubs env co1 σ2 = .error (.failedRequest (clubPlayersUrl c)) := by
  have hmem1 : club ∈ co1 := hperm.mem_iff.mpr hmem
  obtain ⟨c, hc, hbadc, heq⟩ := stage1_error_of_bad_roster env co1 club hmem1 hbad
  exact ⟨c, hperm.mem_iff.mp hc, hbadc, by simp [get_players_for_clubs, heq, Except.bind]⟩

/-- Witness for the amended C1 in the Arsenal/Chelsea scenario. -/
theorem c1_amended_witness :
    ∃ c, c ∈ ["Arsenal", "Chelsea"] ∧
      (arsenalChelseaEnv.roster c).status_code ≠ 200 ∧
      get_players_for_clubs arsenalChelseaEnv ["Chelsea", "Arsenal"] (fun l => l) =
        .error (.failedRequest (clubPlayersUrl c)) :=
  c1_amended arsenalChelseaEnv ["Arsenal", "Chelsea"] ["Chelsea", "Arsenal"]
    (fun l => l) (List.Perm.swap "Arsenal" "Chelsea" []) "Arsenal"
    (by decide) (by decide)

/-- Environment of the key-omission scenario: Arsenal's roster page succeeds
but contains zero player links, Chelsea's succeeds with one, and the player
detail fetch succeeds. -/
def twoClubEnv : Env :=
  ⟨fun club =>
    if club == "Chelsea" then ⟨200, [⟨"/18/player/1/hazard"⟩]⟩
    else ⟨200, []⟩,
   fun _ => ⟨200, ⟨some [("data-player-resource", "100")]⟩⟩⟩

/-- Claim C8: in a mapping returned by `get_players_for_clubs`, a club
appears as a key if and only if at least one Player was resolved for it — it
is a submitted club whose roster extraction yielded at least one player URL —
and no key is ever mapped to an empty sequence, so a club whose roster page
yields zero player-detail URLs is omitted from the mapping entirely. -/
theorem c8_keys_iff (env : Env) (co1 : List String)
    (σ2 : List (String × String) → List (String × String))
    (hσ : ∀ l, List.Perm (σ2 l) l)
    (m : List (String × List Player))
    (hrun : get_players_for_clubs env co1 σ2 = .ok m) :
    (∀ club, club ∈ m.map Prod.fst ↔
      (club ∈ co1 ∧ ∃ urls, ClubPlayersFuture.result club (env.roster club) = .ok urls ∧
        urls ≠ [])) ∧
    (∀ club ps, (club, ps) ∈ m → ps ≠ []) := by
  unfold get_players_for_clubs at hrun
  cases hfs : stage1 env co1 with
  | error e =>
    rw [hfs] at hrun
    exact absurd hrun (by simp [Except.bind])
  | ok fs =>
    rw [hfs] at hrun
    have hrun2 : stage2 env (σ2 fs) [] = .ok m := hrun
    constructor
    · intro club
      rw [stage2_keys env (σ2 fs) [] m hrun2 club]
      simp only [List.map_nil, List.not_mem_nil, false_or]
      constructor
      · rintro ⟨u, hu⟩
        have hu' : (club, u) ∈ fs := (hσ fs).mem_iff.mp hu
        obtain ⟨hc, urls, hres, humem⟩ := (stage1_mem env co1 fs hfs club u).mp hu'
        exact ⟨hc, urls, hres, fun hnil => by simp [hnil] at humem⟩
      · rintro ⟨hc, urls, hres, hne⟩
        obtain ⟨u, hu⟩ := List.exists_mem_of_ne_nil urls hne
        have hmemfs : (club, u) ∈ fs :=
          (stage1_mem env co1 fs hfs club u).mpr ⟨hc, urls, hres, hu⟩
        exact ⟨u, (hσ fs).mem_iff.mpr hmemfs⟩
    · exact stage2_nonempty env (σ2 fs) [] m (by simp) hrun2

/-- The mapping the run of the key-omission scenario produces: Chelsea's one
player, Arsenal omitted. -/
def twoClubResult : List (String × List Player) :=
  [("Chelsea",
    [⟨"1", "hazard", "https://www.futbin.com/18/player/1/hazard",
      some [("data-player-resource", "100")]⟩])]

/-- Witness for C8: in the concrete run, Chelsea (one resolved player) is a
key and Arsenal (zero player URLs) is omitted. -/
theorem c8_keys_iff_witness :
    (∀ club, club ∈ twoClubResult.map Prod.fst ↔
      (club ∈ ["Arsenal", "Chelsea"] ∧
        ∃ urls, ClubPlayersFuture.result club (twoClubEnv.roster club) = .ok urls ∧
          urls ≠ [])) ∧
    (∀ club ps, (club, ps) ∈ twoClubResult → ps ≠ []) :=
  c8_keys_iff twoClubEnv ["Arsenal", "Chelsea"] (fun l => l)
    (fun l => List.Perm.refl l) twoClubResult (by decide)

end FutbinAlerts
